import Mathlib

/-!
Verification development for the starcoin canonical-chain state engine.

The development shallowly embeds two source files:
  * `chain/src/chain.rs` — the `BlockChain` state machine (`new`, `apply`,
    `save_block`, the read accessors);
  * `storage/src/storage.rs` — the tiered storage engine (`StorageInstance`,
    the two-tier `Storage` combinator, the `CodecStorage` typed layer and the
    `HashValue` key/value codecs).

Rust `Result` values become `Except`; the three possible outcomes of running a
fallible Rust function (normal return, `Err` return, and a `panic!`-family
divergence such as `assert_eq!`, `unwrap`, `expect` or `todo!`) become the
three constructors of the result types below, so that panics stay
distinguishable from returned errors.  External capabilities (the consensus
verifier, the transaction executor and the chain-state view, all generic
parameters or foreign crates in the source) are parameters of the embedding.
-/

namespace Starcoin

variable {σ σc σd : Type}

/-! ## Chain data model (types crate, as used by chain.rs) -/

/-- Block header: parent identifier, block number, author.  Other header
fields of the source (timestamp, difficulty, nonce placeholders) play no role
in any embedded operation and are omitted. -/
structure BlockHeader where
  parent_hash : Nat
  number : Nat
  author : Nat
deriving DecidableEq, Repr

/-- Identity of a header is a content hash of its fields; modelled by an
injective pairing of the fields. -/
def headerId (h : BlockHeader) : Nat :=
  Nat.pair h.parent_hash (Nat.pair h.number h.author)

/-- A user transaction, opaque to the chain core. -/
structure SignedUserTransaction where
  payload : Nat
deriving DecidableEq, Repr

/-- Block metadata record, produced from a header. -/
structure BlockMetadata where
  id : Nat
  author : Nat
deriving DecidableEq, Repr

/-- Modelled from the spec: the `BlockMetadata` transaction is synthesized
deterministically from the block header (`header.clone().into_metadata()`;
the types crate implementing it is not in src). -/
def intoMetadata (h : BlockHeader) : BlockMetadata :=
  ⟨headerId h, h.author⟩

/-- Transaction: tagged variant of a user transaction or a block-metadata
transaction, as in the source's `Transaction` enum. -/
inductive Transaction where
  | UserTransaction (txn : SignedUserTransaction)
  | BlockMetadata (meta : BlockMetadata)
deriving DecidableEq, Repr

/-- Content hash of a transaction (`txn.crypto_hash()`), modelled injectively. -/
def txnHash : Transaction → Nat
  | .UserTransaction u => Nat.pair 0 u.payload
  | .BlockMetadata m => Nat.pair 1 (Nat.pair m.id m.author)

/-- Execution status of one transaction: keep or discard, each carrying a
status code. -/
inductive TransactionStatus where
  | Keep (code : Nat)
  | Discard (code : Nat)
deriving DecidableEq, Repr

/-- The `major_status` code of a `vm_status`. -/
def majorStatus : TransactionStatus → Nat
  | .Keep c => c
  | .Discard c => c

/-- Output of executing one transaction. -/
structure TransactionOutput where
  status : TransactionStatus
deriving DecidableEq, Repr

/-- Per-transaction receipt, as constructed in the `apply` loop. -/
structure TransactionInfo where
  transaction_hash : Nat
  state_root_hash : Nat
  event_root_hash : Nat
  gas_used : Nat
  major_status : Nat
deriving DecidableEq, Repr

/-- A block: header plus the ordered user transactions. -/
structure Block where
  header : BlockHeader
  transactions : List SignedUserTransaction
deriving DecidableEq, Repr

/-- Block identity is its header's identity. -/
def blockId (b : Block) : Nat := headerId b.header

/-! ## Block store (storage collaborator of chain.rs) -/

/-- The block index: an association of block ids to blocks. -/
abbrev BlockStore := List (Nat × Block)

/-- Lookup in the block index. -/
def storeLookup : BlockStore → Nat → Option Block
  | [], _ => none
  | e :: rest, h => if e.1 = h then some e.2 else storeLookup rest h

/-- Modelled from the spec: `commit_block(block)` is an idempotent insert into
the block index keyed by the block id (the block-store implementation is in
the storage crate's block module, which is not in src). -/
def commitBlock (s : BlockStore) (b : Block) : BlockStore :=
  match storeLookup s (blockId b) with
  | some _ => s
  | none => (blockId b, b) :: s

/-- Modelled from the spec: `get_block_by_hash` returns an optional result,
wrapped in `Except` to mirror the source's `Result<Option<Block>>`. -/
def getBlockByHash (s : BlockStore) (h : Nat) : Except String (Option Block) :=
  .ok (storeLookup s h)

/-! ## The chain state machine (chain.rs) -/

/-- The external capabilities `BlockChain` is generic over: the consensus
verifier `C::verify_header` (a function of the chain view, represented by its
head block, and the candidate header), the executor
`E::execute_transaction(vm_config, chain_state, txn)` which may mutate the
chain-state view through interior mutability, and the chain-state view's
`commit`, returning the new state root.  `σ` is the chain-state view's state. -/
structure ChainEnv (σ : Type) where
  verifyHeader : Block → BlockHeader → Except Nat Unit
  execTxn : Nat → σ → Transaction → Except Nat (σ × TransactionOutput)
  commit : σ → Except Nat (σ × Nat)

/-- The mutable fields of a `BlockChain` value: the vm configuration
(`config.vm`), the in-memory head block, the chain-state view and the block
store. -/
structure ChainSt (σ : Type) where
  vm_config : Nat
  head : Block
  chain_state : σ
  store : BlockStore
deriving DecidableEq

/-- Classified errors `apply` can return (all are `anyhow::Error` in the
source): a consensus rejection, an executor failure, a discarded transaction
status converted into an error, or a chain-state commit failure. -/
inductive ApplyErr where
  | consensus (code : Nat)
  | execFailure (code : Nat)
  | discard (code : Nat)
  | commitFailure (code : Nat)
deriving DecidableEq, Repr

/-- Result of the transaction-execution loop: normal completion or an early
error return, in both cases carrying the chain-state view as mutated so far. -/
inductive LoopRes (σ : Type) where
  | ok (cs : σ)
  | err (e : ApplyErr) (cs : σ)
deriving DecidableEq

/-- Result of `apply`: a successful return of the new head's hash, an error
return, or a panic.  Every constructor carries the `BlockChain` state visible
at that point, so that claims about head/storage mutation can be stated. -/
inductive ApplyResult (σ : Type) where
  | ok (st : ChainSt σ) (hash : Nat)
  | err (e : ApplyErr) (st : ChainSt σ)
  | panicked (msg : String) (st : ChainSt σ)
deriving DecidableEq

/-- Message of the `assert_eq!` divergence. -/
def assertMsg : String := "assertion failed"

/-- Message of a `todo!` divergence. -/
def todoMsg : String := "not yet implemented"

def ApplyResult.isOk : ApplyResult σ → Bool
  | .ok _ _ => true
  | _ => false

def ApplyResult.isErr : ApplyResult σ → Bool
  | .err _ _ => true
  | _ => false

def ApplyResult.isPanicked : ApplyResult σ → Bool
  | .panicked _ _ => true
  | _ => false

/-- The chain state carried by an `apply` result. -/
def ApplyResult.state : ApplyResult σ → ChainSt σ
  | .ok st _ => st
  | .err _ st => st
  | .panicked _ st => st

/-- The `for txn in txns` loop of `apply`: execute each transaction, return an
error on an executor failure or a `Discard` status, commit the chain state
after every kept transaction and build (then drop) its `TransactionInfo`.
The second component records the transactions handed to the executor, in
order. -/
def execTxns (env : ChainEnv σ) (vm : Nat) : σ → List Transaction → LoopRes σ × List Transaction
  | cs, [] => (.ok cs, [])
  | cs, txn :: rest =>
    let txn_hash := txnHash txn
    match env.execTxn vm cs txn with
    | .error e => (.err (.execFailure e) cs, [txn])
    | .ok (cs₁, output) =>
      match output.status with
      | .Discard code => (.err (.discard code) cs₁, [txn])
      | .Keep _ =>
        match env.commit cs₁ with
        | .error e => (.err (.commitFailure e) cs₁, [txn])
        | .ok (cs₂, state_root) =>
          let _info : TransactionInfo :=
            ⟨txn_hash, state_root, 0, 0, majorStatus output.status⟩
          let r := execTxns env vm cs₂ rest
          (r.1, txn :: r.2)

/-- `ChainWriter::apply` from chain.rs, lines 139–179.  The parent-hash check
is the `assert_eq!` (a panic on mismatch, before anything else; no block-number
check exists); then `C::verify_header`; then the execution sequence is the
user transactions in block order followed by the synthesized metadata
transaction; on loop completion `save_block` runs `commit_block` and then hits
an unconditional `todo!`, so the trailing `flush`, head assignment and `Ok`
return of the source are unreachable.  The second component is the executed
transaction trace. -/
def apply (env : ChainEnv σ) (st : ChainSt σ) (block : Block) : ApplyResult σ × List Transaction :=
  if headerId st.head.header = block.header.parent_hash then
    match env.verifyHeader st.head block.header with
    | .error e => (.err (.consensus e) st, [])
    | .ok _ =>
      let txns := block.transactions.map Transaction.UserTransaction
        ++ [Transaction.BlockMetadata (intoMetadata block.header)]
      match execTxns env st.vm_config st.chain_state txns with
      | (.ok cs, trace) =>
        (.panicked todoMsg ⟨st.vm_config, st.head, cs, commitBlock st.store block⟩, trace)
      | (.err e cs, trace) =>
        (.err e ⟨st.vm_config, st.head, cs, st.store⟩, trace)
  else
    (.panicked assertMsg st, [])

/-- Modelled from the spec: genesis construction is deterministic and
config-independent (`genesis_block_header_for_test` and
`new_nil_block_for_test` live in the types crate, not in src). -/
def genesis_block_header : BlockHeader := ⟨0, 0, 0⟩

/-- `load_genesis_block` from chain.rs. -/
def load_genesis_block : Block := ⟨genesis_block_header, []⟩

/-- Result of `BlockChain::new`: success, a propagated storage error (the `?`
on `get_block_by_hash`), or a panic (the `.expect("")` on a missing block). -/
inductive NewResult (σ : Type) where
  | ok (chain : ChainSt σ)
  | err (msg : String)
  | panicked (msg : String)
deriving DecidableEq

def NewResult.isErr : NewResult σ → Bool
  | .err _ => true
  | _ => false

/-- `BlockChain::new` from chain.rs, lines 49–67: with a resume header, load
its block from the block store — propagating a storage error with `?` and
panicking via `.expect("")` when the block is absent; with no resume header,
start from the genesis block.  `cs0` is the fresh chain-state view
(`StarcoinChainState::new()`). -/
def BlockChain.new (vm : Nat) (cs0 : σ) (store : BlockStore)
    (head_block_header : Option BlockHeader) : NewResult σ :=
  match head_block_header with
  | some hdr =>
    match getBlockByHash store (headerId hdr) with
    | .error e => .err e
    | .ok none => .panicked ""
    | .ok (some b) => .ok ⟨vm, b, cs0, store⟩
  | none => .ok ⟨vm, load_genesis_block, cs0, store⟩

/-- `ChainReader::get_block`: delegated to the block store. -/
def BlockChain.get_block (st : ChainSt σ) (h : Nat) : Except String (Option Block) :=
  getBlockByHash st.store h

/-- `ChainReader::head_block`. -/
def BlockChain.head_block (st : ChainSt σ) : Block := st.head

/-! ## Tiered storage engine (storage.rs) -/

/-- Keys and values are byte strings. -/
abbrev Bytes := List Nat

/-- Result of a read-only storage operation: a value, a returned error, or a
panic (`unimplemented!`). -/
inductive RRes (α : Type) where
  | ok (a : α)
  | err (e : String)
  | panicked (msg : String)
deriving DecidableEq

/-- Result of a mutating storage operation, carrying the storage state visible
at the point of return, error or panic. -/
inductive MRes (σ : Type) where
  | ok (s : σ)
  | err (e : String) (s : σ)
  | panicked (msg : String) (s : σ)
deriving DecidableEq

def RRes.isErr : RRes α → Bool
  | .err _ => true
  | _ => false

def MRes.isErr : MRes σ → Bool
  | .err _ _ => true
  | _ => false

def MRes.isPanicked : MRes σ → Bool
  | .panicked _ _ => true
  | _ => false

/-- Lift a backend `Result` into an operation result. -/
def liftE : Except String α → RRes α
  | .ok a => .ok a
  | .error e => .err e

/-- Map the carried state of a mutating-operation result. -/
def MRes.map (f : α → β) : MRes α → MRes β
  | .ok s => .ok (f s)
  | .err e s => .err e (f s)
  | .panicked m s => .panicked m (f s)

/-- Two mutating-operation results agree in policy when they took the same
branch (success, error, or panic) and carry corresponding states; the error
and panic message texts are not compared. -/
def MRes.policyEq (f : α → β) : MRes α → MRes β → Prop
  | .ok a, .ok b => f a = b
  | .err _ a, .err _ b => f a = b
  | .panicked _ a, .panicked _ b => f a = b
  | _, _ => False

/-- `WriteOp` from storage.rs. -/
inductive WriteOp where
  | Value (v : Bytes)
  | Deletion
deriving DecidableEq

/-- Modelled from the spec: a `WriteBatch` is an ordered sequence of put/delete
rows targeting one namespace (batch.rs is not in src); the routing layer
treats it opaquely. -/
structure WriteBatch where
  prefix_name : String
  rows : List (Bytes × WriteOp)
deriving DecidableEq

/-- The `InnerStore` trait: a physical backend over namespaced byte keys, with
explicit state `σ`.  Every method returns `Result`; backends themselves do not
panic. -/
structure InnerStore (σ : Type) where
  get : σ → String → Bytes → Except String (Option Bytes)
  put : σ → String → Bytes → Bytes → Except String σ
  contains_key : σ → String → Bytes → Except String Bool
  remove : σ → String → Bytes → Except String σ
  write_batch : σ → WriteBatch → Except String σ
  get_len : σ → Except String Nat
  keys : σ → Except String (List Bytes)

/-- `StorageInstance` from storage.rs: which backend(s) serve a namespace.
`σc` is the cache backend's state, `σd` the durable backend's state. -/
inductive StorageInstance (σc σd : Type) where
  | CACHE (cache : σc)
  | DB (db : σd)
  | CacheAndDb (cache : σc) (db : σd)
deriving DecidableEq

/-- Message of the `unwrap` divergence on an `Err` value. -/
def unwrapMsg : String := "called unwrap on an Err value"

/-- Message of an `unimplemented!` divergence. -/
def unimplementedMsg : String := "not implemented"

/-- `InnerStore::get` for `StorageInstance` (storage.rs lines 74–88): single
backends delegate; `CacheAndDb` returns a cache hit and otherwise — on a cache
miss or a cache error — falls through to the durable backend. -/
def StorageInstance.get (I : InnerStore σc) (J : InnerStore σd) :
    StorageInstance σc σd → String → Bytes → RRes (Option Bytes)
  | .CACHE cache, pn, key => liftE (I.get cache pn key)
  | .DB db, pn, key => liftE (J.get db pn key)
  | .CacheAndDb cache db, pn, key =>
    match I.get cache pn key with
    | .ok (some v) => .ok (some v)
    | _ => liftE (J.get db pn key)

/-- `InnerStore::put` for `StorageInstance` (storage.rs lines 90–100):
`CacheAndDb` writes the durable backend first with `.unwrap()` — a panic on a
durable failure, before the cache is touched — and only then writes the
cache. -/
def StorageInstance.put (I : InnerStore σc) (J : InnerStore σd) :
    StorageInstance σc σd → String → Bytes → Bytes → MRes (StorageInstance σc σd)
  | .CACHE cache, pn, k, v =>
    match I.put cache pn k v with
    | .ok c₂ => .ok (.CACHE c₂)
    | .error e => .err e (.CACHE cache)
  | .DB db, pn, k, v =>
    match J.put db pn k v with
    | .ok d₂ => .ok (.DB d₂)
    | .error e => .err e (.DB db)
  | .CacheAndDb cache db, pn, k, v =>
    match J.put db pn k v with
    | .error _ => .panicked unwrapMsg (.CacheAndDb cache db)
    | .ok d₂ =>
      match I.put cache pn k v with
      | .ok c₂ => .ok (.CacheAndDb c₂ d₂)
      | .error e => .err e (.CacheAndDb cache d₂)

/-- `InnerStore::contains_key` for `StorageInstance` (storage.rs lines
102–114): `CacheAndDb` returns the cache's answer when the cache answers, and
asks the durable backend only on a cache error. -/
def StorageInstance.contains_key (I : InnerStore σc) (J : InnerStore σd) :
    StorageInstance σc σd → String → Bytes → RRes Bool
  | .CACHE cache, pn, k => liftE (I.contains_key cache pn k)
  | .DB db, pn, k => liftE (J.contains_key db pn k)
  | .CacheAndDb cache db, pn, k =>
    match I.contains_key cache pn k with
    | .error _ => liftE (J.contains_key db pn k)
    | .ok is_contains => .ok is_contains

/-- `InnerStore::remove` for `StorageInstance` (storage.rs lines 116–128):
`CacheAndDb` removes from the durable backend first; a durable failure is an
error (`bail!`) with the cache untouched. -/
def StorageInstance.remove (I : InnerStore σc) (J : InnerStore σd) :
    StorageInstance σc σd → String → Bytes → MRes (StorageInstance σc σd)
  | .CACHE cache, pn, k =>
    match I.remove cache pn k with
    | .ok c₂ => .ok (.CACHE c₂)
    | .error e => .err e (.CACHE cache)
  | .DB db, pn, k =>
    match J.remove db pn k with
    | .ok d₂ => .ok (.DB d₂)
    | .error e => .err e (.DB db)
  | .CacheAndDb cache db, pn, k =>
    match J.remove db pn k with
    | .ok d₂ =>
      match I.remove cache pn k with
      | .ok c₂ => .ok (.CacheAndDb c₂ d₂)
      | .error e => .err e (.CacheAndDb cache d₂)
    | .error _ => .err "db storage remove error." (.CacheAndDb cache db)

/-- `InnerStore::write_batch` for `StorageInstance` (storage.rs lines
130–140): `CacheAndDb` applies the batch to the durable backend first; a
durable failure is an error (`bail!`) with the cache untouched. -/
def StorageInstance.write_batch (I : InnerStore σc) (J : InnerStore σd) :
    StorageInstance σc σd → WriteBatch → MRes (StorageInstance σc σd)
  | .CACHE cache, batch =>
    match I.write_batch cache batch with
    | .ok c₂ => .ok (.CACHE c₂)
    | .error e => .err e (.CACHE cache)
  | .DB db, batch =>
    match J.write_batch db batch with
    | .ok d₂ => .ok (.DB d₂)
    | .error e => .err e (.DB db)
  | .CacheAndDb cache db, batch =>
    match J.write_batch db batch with
    | .ok d₂ =>
      match I.write_batch cache batch with
      | .ok c₂ => .ok (.CacheAndDb c₂ d₂)
      | .error e => .err e (.CacheAndDb cache d₂)
    | .error e => .err ("write batch db error: " ++ e) (.CacheAndDb cache db)

/-- `InnerStore::get_len` for `StorageInstance` (storage.rs lines 142–149):
cache only; `unimplemented!` — a panic — for a durable-only instance. -/
def StorageInstance.get_len (I : InnerStore σc) (_J : InnerStore σd) :
    StorageInstance σc σd → RRes Nat
  | .CACHE cache => liftE (I.get_len cache)
  | .DB _ => .panicked unimplementedMsg
  | .CacheAndDb cache _ => liftE (I.get_len cache)

/-- `InnerStore::keys` for `StorageInstance` (storage.rs lines 151–158). -/
def StorageInstance.keys (I : InnerStore σc) (_J : InnerStore σd) :
    StorageInstance σc σd → RRes (List Bytes)
  | .CACHE cache => liftE (I.keys cache)
  | .DB _ => .panicked unimplementedMsg
  | .CacheAndDb cache _ => liftE (I.keys cache)

/-- The separate two-tier combinator `Storage` from storage.rs lines 207–225:
explicit cache and durable capabilities plus a fixed column-family name. -/
structure Storage (σc σd : Type) where
  cache : σc
  db : σd
  prefix_name : String
deriving DecidableEq

/-- View a `Storage` value as the corresponding `CacheAndDb` instance. -/
def toInstance (s : Storage σc σd) : StorageInstance σc σd :=
  .CacheAndDb s.cache s.db

/-- `KVStore::get` for `Storage` (storage.rs lines 228–236): cache hit, else
fall through to the durable backend. -/
def Storage.get (I : InnerStore σc) (J : InnerStore σd) (s : Storage σc σd)
    (key : Bytes) : RRes (Option Bytes) :=
  match I.get s.cache s.prefix_name key with
  | .ok (some v) => .ok (some v)
  | _ => liftE (J.get s.db s.prefix_name key)

/-- `KVStore::put` for `Storage` (storage.rs lines 238–244): durable write
first with `.unwrap()` — a panic on failure, cache untouched — then the cache
write. -/
def Storage.put (I : InnerStore σc) (J : InnerStore σd) (s : Storage σc σd)
    (k v : Bytes) : MRes (Storage σc σd) :=
  match J.put s.db s.prefix_name k v with
  | .error _ => .panicked unwrapMsg s
  | .ok d₂ =>
    match I.put s.cache s.prefix_name k v with
    | .ok c₂ => .ok ⟨c₂, d₂, s.prefix_name⟩
    | .error e => .err e ⟨s.cache, d₂, s.prefix_name⟩

/-- `KVStore::contains_key` for `Storage` (storage.rs lines 246–248): the
cache alone is consulted; there is no durable fallback. -/
def Storage.contains_key (I : InnerStore σc) (s : Storage σc σd)
    (k : Bytes) : RRes Bool :=
  liftE (I.contains_key s.cache s.prefix_name k)

/-- `KVStore::remove` for `Storage` (storage.rs lines 250–255): durable
removal first; a durable failure is an error with the cache untouched. -/
def Storage.remove (I : InnerStore σc) (J : InnerStore σd) (s : Storage σc σd)
    (k : Bytes) : MRes (Storage σc σd) :=
  match J.remove s.db s.prefix_name k with
  | .ok d₂ =>
    match I.remove s.cache s.prefix_name k with
    | .ok c₂ => .ok ⟨c₂, d₂, s.prefix_name⟩
    | .error e => .err e ⟨s.cache, d₂, s.prefix_name⟩
  | .error e => .err ("remove persistence error: " ++ e) s

/-- `KVStore::write_batch` for `Storage` (storage.rs lines 257–262). -/
def Storage.write_batch (I : InnerStore σc) (J : InnerStore σd)
    (s : Storage σc σd) (batch : WriteBatch) : MRes (Storage σc σd) :=
  match J.write_batch s.db batch with
  | .ok d₂ =>
    match I.write_batch s.cache batch with
    | .ok c₂ => .ok ⟨c₂, d₂, s.prefix_name⟩
    | .error e => .err e ⟨s.cache, d₂, s.prefix_name⟩
  | .error e => .err ("write batch db error: " ++ e) s

/-- `KVStore::get_len` for `Storage` (storage.rs lines 264–266). -/
def Storage.get_len (I : InnerStore σc) (s : Storage σc σd) : RRes Nat :=
  liftE (I.get_len s.cache)

/-- `KVStore::keys` for `Storage` (storage.rs lines 268–270). -/
def Storage.keys (I : InnerStore σc) (s : Storage σc σd) : RRes (List Bytes) :=
  liftE (I.keys s.cache)

/-! ## Concrete backends -/

/-- State of the canonical map backend: an association list from
(namespace, key) to value; the most recent binding wins. -/
abbrev MapSt := List ((String × Bytes) × Bytes)

/-- Lookup in the map backend. -/
def mget : MapSt → String → Bytes → Option Bytes
  | [], _, _ => none
  | e :: rest, pn, k => if e.1 = (pn, k) then some e.2 else mget rest pn k

/-- Insert into the map backend. -/
def mput (s : MapSt) (pn : String) (k v : Bytes) : MapSt :=
  ((pn, k), v) :: s

/-- Delete from the map backend. -/
def mremove (s : MapSt) (pn : String) (k : Bytes) : MapSt :=
  s.filter (fun e => !(decide (e.1 = (pn, k))))

/-- Apply one batch row to the map backend. -/
def mbatchRow (pn : String) (s : MapSt) (row : Bytes × WriteOp) : MapSt :=
  match row.2 with
  | .Value v => mput s pn row.1 v
  | .Deletion => mremove s pn row.1

/-- The canonical in-memory backend: all operations succeed, with map
semantics. -/
def mapStore : InnerStore MapSt :=
  ⟨fun s pn k => .ok (mget s pn k),
   fun s pn k v => .ok (mput s pn k v),
   fun s pn k => .ok (mget s pn k).isSome,
   fun s pn k => .ok (mremove s pn k),
   fun s b => .ok (b.rows.foldl (mbatchRow b.prefix_name) s),
   fun s => .ok s.length,
   fun s => .ok (s.map (fun e => e.1.2))⟩

/-- A backend whose every operation fails with an I/O error. -/
def failStore : InnerStore Unit :=
  ⟨fun _ _ _ => .error "io error",
   fun _ _ _ _ => .error "io error",
   fun _ _ _ => .error "io error",
   fun _ _ _ => .error "io error",
   fun _ _ => .error "io error",
   fun _ => .error "io error",
   fun _ => .error "io error"⟩

/-! ## Typed codec layer (storage.rs lines 273–356) -/

/-- A 32-byte hash value, as stored by the `HashValue` codecs. -/
abbrev HashValue := { l : Bytes // l.length = 32 }

/-- `HashValue::to_vec`. -/
def HashValue.to_vec (h : HashValue) : Bytes := h.val

/-- Modelled from the spec: `HashValue::from_slice` (crypto crate, not in src)
rejects input of the wrong length with an explicit error instead of panicking
or truncating. -/
def HashValue.from_slice (data : Bytes) : Except String HashValue :=
  if h : data.length = 32 then .ok ⟨data, h⟩ else .error "InvalidLength"

/-- `KeyCodec::encode_key` for `HashValue` (storage.rs lines 339–341). -/
def HashValue.encode_key (h : HashValue) : Except String Bytes := .ok h.to_vec

/-- `KeyCodec::decode_key` for `HashValue` (storage.rs lines 343–345). -/
def HashValue.decode_key (data : Bytes) : Except String HashValue :=
  HashValue.from_slice data

/-- `ValueCodec::encode_value` for `HashValue` (storage.rs lines 349–351). -/
def HashValue.encode_value (h : HashValue) : Except String Bytes := .ok h.to_vec

/-- `ValueCodec::decode_value` for `HashValue` (storage.rs lines 353–355). -/
def HashValue.decode_value (data : Bytes) : Except String HashValue :=
  HashValue.from_slice data

/-- The `KVStore` capability as consumed by `CodecStorage` (only `get` is
needed by the embedded claims). -/
structure KVStore (σ : Type) where
  get : σ → Bytes → Except String (Option Bytes)

/-- `CodecStorage::get` (storage.rs lines 310–315): encode the key, read the
byte store, decode the value, propagating every error with `?`. -/
def CodecStorage.get (S : KVStore σ) (s : σ) (key : HashValue) :
    Except String (Option HashValue) :=
  match key.encode_key with
  | .error e => .error e
  | .ok kb =>
    match S.get s kb with
    | .error e => .error e
    | .ok none => .ok none
    | .ok (some bytes) =>
      match HashValue.decode_value bytes with
      | .error e => .error e
      | .ok v => .ok (some v)

/-! ## Concrete chain environments and inputs -/

/-- Chain state view used on happy paths: a commit counter.  The executor
keeps every transaction, the consensus verifier accepts every header, and each
commit bumps the counter and reports it as the state root. -/
def envAccept : ChainEnv Nat :=
  ⟨fun _ _ => .ok (), fun _ cs _ => .ok (cs, ⟨.Keep 0⟩), fun cs => .ok (cs + 1, cs)⟩

/-- A consensus verifier that rejects every header with code 5, atop the
accepting executor. -/
def envReject : ChainEnv Nat :=
  ⟨fun _ _ => .error 5, fun _ cs _ => .ok (cs, ⟨.Keep 0⟩), fun cs => .ok (cs + 1, cs)⟩

/-- Status assigned by the discarding executor: the user transaction with
payload 99 is discarded with code 42, everything else is kept. -/
def statusFor : Transaction → TransactionStatus
  | .UserTransaction u => if u.payload = 99 then .Discard 42 else .Keep 0
  | .BlockMetadata _ => .Keep 0

/-- Chain environment whose state view records every committed state root:
the executor keeps or discards according to `statusFor` without touching
state, and each commit appends a fresh root to the record. -/
def envDiscard : ChainEnv (List Nat) :=
  ⟨fun _ _ => .ok (),
   fun _ cs t => .ok (cs, ⟨statusFor t⟩),
   fun cs => .ok (cs ++ [cs.length], cs.length)⟩

/-- Initial chain state at the genesis block, with counter state view. -/
def st0 : ChainSt Nat := ⟨0, load_genesis_block, 0, []⟩

/-- Initial chain state at the genesis block, with root-recording state view. -/
def st3 : ChainSt (List Nat) := ⟨0, load_genesis_block, [], []⟩

/-- A block whose parent hash (999) differs from the genesis id. -/
def bBadParent : Block := ⟨⟨999, 1, 0⟩, []⟩

/-- A block extending genesis by parent hash but with number 7 instead of 1. -/
def bBadNumber : Block := ⟨⟨headerId genesis_block_header, 7, 0⟩, [⟨3⟩]⟩

/-- A well-formed successor of genesis carrying one user transaction. -/
def b1 : Block := ⟨⟨headerId genesis_block_header, 1, 0⟩, [⟨7⟩]⟩

/-- A successor of genesis whose second user transaction is discarded. -/
def b3 : Block := ⟨⟨headerId genesis_block_header, 1, 0⟩, [⟨1⟩, ⟨99⟩]⟩

/-- A byte store holding the malformed two-byte value [1, 2] under every key. -/
def kvConst : KVStore Unit := ⟨fun _ _ => .ok (some [1, 2])⟩

/-- A concrete 32-byte hash value. -/
def h32 : HashValue := ⟨List.replicate 32 0, by decide⟩

/-! ## Helper lemmas -/

/-- The transactions handed to the executor are always an in-order prefix of
the transaction sequence given to the loop. -/
theorem execTxns_trace_prefix (env : ChainEnv σ) (vm : Nat) (cs : σ)
    (txns : List Transaction) : (execTxns env vm cs txns).2 <+: txns := by
  induction txns generalizing cs with
  | nil => simp [execTxns]
  | cons txn rest ih =>
    cases h1 : env.execTxn vm cs txn with
    | error e => exact ⟨rest, by simp [execTxns, h1]⟩
    | ok p =>
      obtain ⟨cs₁, output⟩ := p
      cases h2 : output.status with
      | Discard code => exact ⟨rest, by simp [execTxns, h1, h2]⟩
      | Keep code =>
        cases h3 : env.commit cs₁ with
        | error e => exact ⟨rest, by simp [execTxns, h1, h2, h3]⟩
        | ok q =>
          obtain ⟨cs₂, root⟩ := q
          obtain ⟨t, ht⟩ := ih cs₂
          exact ⟨t, by simp [execTxns, h1, h2, h3, ht]⟩

/-- When the loop completes normally, every transaction of the sequence was
executed, in order. -/
theorem execTxns_ok_trace (env : ChainEnv σ) (vm : Nat) (cs cs' : σ)
    (txns trace : List Transaction)
    (h : execTxns env vm cs txns = (.ok cs', trace)) : trace = txns := by
  induction txns generalizing cs trace with
  | nil =>
    simp only [execTxns, Prod.mk.injEq] at h
    exact h.2.symm
  | cons txn rest ih =>
    cases h1 : env.execTxn vm cs txn with
    | error e => simp [execTxns, h1] at h
    | ok p =>
      obtain ⟨cs₁, output⟩ := p
      cases h2 : output.status with
      | Discard code => simp [execTxns, h1, h2] at h
      | Keep code =>
        cases h3 : env.commit cs₁ with
        | error e => simp [execTxns, h1, h2, h3] at h
        | ok q =>
          obtain ⟨cs₂, root⟩ := q
          simp only [execTxns, h1, h2, h3, Prod.mk.injEq] at h
          cases hr : execTxns env vm cs₂ rest with
          | mk res tr =>
            rw [hr] at h
            obtain ⟨hres, htr⟩ := h
            rw [← htr, ih cs₂ tr (by rw [hr]; exact congrArg (fun x => (x, tr)) hres)]

/-- Lookup after insert in the map backend. -/
theorem mget_mput (s : MapSt) (pn : String) (k v : Bytes) :
    mget (mput s pn k v) pn k = some v := by
  simp [mget, mput]

/-- Lookup after delete in the map backend. -/
theorem mget_mremove (s : MapSt) (pn : String) (k : Bytes) :
    mget (mremove s pn k) pn k = none := by
  induction s with
  | nil => rfl
  | cons e rest ih =>
    by_cases he : e.1 = (pn, k)
    · simpa [mremove, he] using ih
    · simpa [mremove, mget, he] using ih

/-! ## Claims -/

/-- C10: in the source as written, `apply` never returns successfully: every
invocation either returns an error (a consensus rejection, an executor
failure, a discard status, or a commit failure) or diverges by panicking (the
parent check's `assert_eq!`, or the unconditional `todo!` reached through
`save_block` after `commit_block`), so an `Ok` result is unreachable. -/
theorem c10_apply_never_ok :
    ∀ (σ : Type) (env : ChainEnv σ) (st : ChainSt σ) (b : Block),
      ApplyResult.isOk (apply env st b).1 = false := by
  intro σ env st b
  unfold apply
  split
  · split
    · simp [ApplyResult.isOk]
    · cases hr : execTxns env st.vm_config st.chain_state
          (b.transactions.map Transaction.UserTransaction
            ++ [Transaction.BlockMetadata (intoMetadata b.header)]) with
      | mk res trace => cases res <;> simp [hr, ApplyResult.isOk]
  · simp [ApplyResult.isOk]

/-- C1 (amended): for every block whose header's parent hash differs from the
current head's id, `apply` diverges with the assertion panic — not a
classified error — before consensus verification and before any transaction
execution, and the head, chain state and storage are unchanged at the panic
point; the block number is not validated: with a matching parent, `apply`
proceeds directly to consensus verification whatever the number is. -/
theorem c1_parent_check :
    (∀ (σ : Type) (env : ChainEnv σ) (st : ChainSt σ) (b : Block),
       ¬ headerId st.head.header = b.header.parent_hash →
       apply env st b = (.panicked assertMsg st, [])) ∧
    (∀ (σ : Type) (env : ChainEnv σ) (st : ChainSt σ) (b : Block) (e : Nat),
       headerId st.head.header = b.header.parent_hash →
       env.verifyHeader st.head b.header = .error e →
       apply env st b = (.err (.consensus e) st, [])) := by
  constructor
  · intro σ env st b h
    simp [apply, h]
  · intro σ env st b e hp hv
    simp [apply, hp, hv]

/-- Witness for C1: concrete instances of both conjuncts. -/
theorem c1_parent_check_witness :
    (¬ headerId st0.head.header = bBadParent.header.parent_hash) ∧
    apply envAccept st0 bBadParent = (.panicked assertMsg st0, []) ∧
    (headerId st0.head.header = bBadNumber.header.parent_hash) ∧
    apply envReject st0 bBadNumber = (.err (.consensus 5) st0, []) :=
  ⟨by decide, c1_parent_check.1 Nat envAccept st0 bBadParent (by decide),
   by decide, c1_parent_check.2 Nat envReject st0 bBadNumber 5 (by decide) rfl⟩

/-- Counterexample for C1 as stated: on a parent mismatch the result is a
panic, not an error of any kind; and a number mismatch alone (parent correct,
number 7 instead of 1) does not abort before execution — the executed trace is
nonempty and no error is returned. -/
theorem c1_counterexample :
    (apply envAccept st0 bBadParent).1 = .panicked assertMsg st0 ∧
    ApplyResult.isErr (apply envAccept st0 bBadParent).1 = false ∧
    ApplyResult.isErr (apply envAccept st0 bBadNumber).1 = false ∧
    ((apply envAccept st0 bBadNumber).2).isEmpty = false :=
  ⟨rfl, rfl, rfl, rfl⟩

/-- C2 (code bug): on the happy path — parent correct, consensus accepting,
every transaction kept — `apply` executes the whole block, commits the block
to the block store (so the block is retrievable by its id from the resulting
storage), but then panics at the unconditional `todo!` inside `save_block`:
it never returns success and the in-memory head is not advanced to the new
block. -/
theorem c2_happy_path_panics :
    (apply envAccept st0 b1).1 =
      .panicked todoMsg ⟨0, load_genesis_block, 2, [(blockId b1, b1)]⟩ ∧
    ApplyResult.isOk (apply envAccept st0 b1).1 = false ∧
    BlockChain.get_block ((apply envAccept st0 b1).1.state) (blockId b1) =
      .ok (some b1) ∧
    ((apply envAccept st0 b1).1.state).head = load_genesis_block :=
  ⟨rfl, rfl, rfl, rfl⟩

/-- C3 (code bug): a block whose second user transaction is discarded makes
`apply` return the discard error with the head and the block store unchanged,
but the state root committed for the first (kept) transaction of the same
block remains observable in the chain-state view after the failed apply. -/
theorem c3_partial_commit_observable :
    apply envDiscard st3 b3 =
      (.err (.discard 42) ⟨0, load_genesis_block, [0], []⟩,
       [Transaction.UserTransaction ⟨1⟩, Transaction.UserTransaction ⟨99⟩]) ∧
    ((apply envDiscard st3 b3).1.state).chain_state = [0] ∧
    ((apply envDiscard st3 b3).1.state).head = load_genesis_block ∧
    ((apply envDiscard st3 b3).1.state).store = ([] : BlockStore) :=
  ⟨rfl, rfl, rfl, rfl⟩

/-- C7: once past the parent check and consensus verification, the execution
sequence `apply` builds is the block's user transactions in block order
followed by exactly one `BlockMetadata` transaction synthesized from the
header; the transactions handed to the executor are an in-order prefix of that
sequence, and when the loop runs to completion (the panic at `save_block`)
they are exactly that sequence. -/
theorem c7_txn_sequence :
    ∀ (σ : Type) (env : ChainEnv σ) (st : ChainSt σ) (b : Block),
      headerId st.head.header = b.header.parent_hash →
      env.verifyHeader st.head b.header = .ok () →
      ((apply env st b).2 <+:
        b.transactions.map Transaction.UserTransaction
          ++ [Transaction.BlockMetadata (intoMetadata b.header)]) ∧
      (ApplyResult.isPanicked (apply env st b).1 = true →
        (apply env st b).2 =
          b.transactions.map Transaction.UserTransaction
            ++ [Transaction.BlockMetadata (intoMetadata b.header)]) := by
  intro σ env st b hp hv
  have hpre := execTxns_trace_prefix env st.vm_config st.chain_state
    (b.transactions.map Transaction.UserTransaction
      ++ [Transaction.BlockMetadata (intoMetadata b.header)])
  cases hr : execTxns env st.vm_config st.chain_state
      (b.transactions.map Transaction.UserTransaction
        ++ [Transaction.BlockMetadata (intoMetadata b.header)]) with
  | mk res trace =>
    rw [hr] at hpre
    cases res with
    | ok cs =>
      have happ : apply env st b =
          (.panicked todoMsg ⟨st.vm_config, st.head, cs, commitBlock st.store b⟩, trace) := by
        simp [apply, hp, hv, hr]
      rw [happ]
      exact ⟨hpre, fun _ => execTxns_ok_trace env st.vm_config st.chain_state cs _ trace hr⟩
    | err e cs =>
      have happ : apply env st b =
          (.err e ⟨st.vm_config, st.head, cs, st.store⟩, trace) := by
        simp [apply, hp, hv, hr]
      rw [happ]
      refine ⟨hpre, ?_⟩
      intro hcontra
      simp [ApplyResult.isPanicked] at hcontra

/-- Witness for C7: the happy-path block `b1` with the accepting environment. -/
theorem c7_txn_sequence_witness :
    (headerId st0.head.header = b1.header.parent_hash) ∧
    (envAccept.verifyHeader st0.head b1.header = .ok ()) ∧
    ((apply envAccept st0 b1).2 <+:
      b1.transactions.map Transaction.UserTransaction
        ++ [Transaction.BlockMetadata (intoMetadata b1.header)]) ∧
    (ApplyResult.isPanicked (apply envAccept st0 b1).1 = true →
      (apply envAccept st0 b1).2 =
        b1.transactions.map Transaction.UserTransaction
          ++ [Transaction.BlockMetadata (intoMetadata b1.header)]) :=
  ⟨by decide, rfl,
   (c7_txn_sequence Nat envAccept st0 b1 (by decide) rfl).1,
   (c7_txn_sequence Nat envAccept st0 b1 (by decide) rfl).2⟩

/-- C9 (amended): when the constructor is given a resume header whose block is
absent from the block store, it panics (the `.expect("")` on the missing
block) rather than returning an error; when no resume header is given, it
initializes the head from the genesis block. -/
theorem c9_constructor :
    (∀ (σ : Type) (vm : Nat) (cs0 : σ) (store : BlockStore) (hdr : BlockHeader),
       storeLookup store (headerId hdr) = none →
       BlockChain.new vm cs0 store (some hdr) = .panicked "") ∧
    (∀ (σ : Type) (vm : Nat) (cs0 : σ) (store : BlockStore),
       BlockChain.new vm cs0 store none = .ok ⟨vm, load_genesis_block, cs0, store⟩) := by
  constructor
  · intro σ vm cs0 store hdr h
    simp [BlockChain.new, getBlockByHash, h]
  · intro σ vm cs0 store
    rfl

/-- Witness for C9: an empty block store and the genesis header. -/
theorem c9_constructor_witness :
    storeLookup [] (headerId genesis_block_header) = none ∧
    BlockChain.new 0 (0 : Nat) [] (some genesis_block_header) = .panicked "" ∧
    BlockChain.new 0 (0 : Nat) [] none = .ok ⟨0, load_genesis_block, 0, []⟩ :=
  ⟨rfl, c9_constructor.1 Nat 0 0 [] genesis_block_header rfl,
   c9_constructor.2 Nat 0 0 []⟩

/-- Counterexample for C9 as stated: with a resume header whose block is
absent, the constructor's result is a panic, not a returned error. -/
theorem c9_counterexample :
    BlockChain.new 1 (0 : Nat) [] (some genesis_block_header) = .panicked "" ∧
    NewResult.isErr (BlockChain.new 1 (0 : Nat) [] (some genesis_block_header)) = false :=
  ⟨rfl, rfl⟩

/-- C4 (amended): for `put` and `write_batch` on a `CacheAndDb` instance (and
for the two-tier `Storage` combinator's `put`), the durable backend is written
first and the cache is updated only after the durable write succeeds; a
durable-write failure leaves the cache untouched, but aborts with a panic (the
`unwrap`) for `put` and with a returned error for `write_batch`. -/
theorem c4_durable_first :
    (∀ (σc σd : Type) (I : InnerStore σc) (J : InnerStore σd) (c : σc) (d : σd)
       (pn : String) (k v : Bytes) (e : String),
       J.put d pn k v = .error e →
       StorageInstance.put I J (.CacheAndDb c d) pn k v =
         .panicked unwrapMsg (.CacheAndDb c d)) ∧
    (∀ (σc σd : Type) (I : InnerStore σc) (J : InnerStore σd) (c : σc) (d : σd)
       (pn : String) (k v : Bytes) (d₂ : σd) (c₂ : σc),
       J.put d pn k v = .ok d₂ → I.put c pn k v = .ok c₂ →
       StorageInstance.put I J (.CacheAndDb c d) pn k v = .ok (.CacheAndDb c₂ d₂)) ∧
    (∀ (σc σd : Type) (I : InnerStore σc) (J : InnerStore σd) (c : σc) (d : σd)
       (batch : WriteBatch) (e : String),
       J.write_batch d batch = .error e →
       StorageInstance.write_batch I J (.CacheAndDb c d) batch =
         .err ("write batch db error: " ++ e) (.CacheAndDb c d)) ∧
    (∀ (σc σd : Type) (I : InnerStore σc) (J : InnerStore σd) (c : σc) (d : σd)
       (batch : WriteBatch) (d₂ : σd) (c₂ : σc),
       J.write_batch d batch = .ok d₂ → I.write_batch c batch = .ok c₂ →
       StorageInstance.write_batch I J (.CacheAndDb c d) batch =
         .ok (.CacheAndDb c₂ d₂)) ∧
    (∀ (σc σd : Type) (I : InnerStore σc) (J : InnerStore σd) (s : Storage σc σd)
       (k v : Bytes) (e : String),
       J.put s.db s.prefix_name k v = .error e →
       Storage.put I J s k v = .panicked unwrapMsg s) := by
  refine ⟨?_, ?_, ?_, ?_, ?_⟩
  · intro σc σd I J c d pn k v e h
    simp [StorageInstance.put, h]
  · intro σc σd I J c d pn k v d₂ c₂ hd hc
    simp [StorageInstance.put, hd, hc]
  · intro σc σd I J c d batch e h
    simp [StorageInstance.write_batch, h]
  · intro σc σd I J c d batch d₂ c₂ hd hc
    simp [StorageInstance.write_batch, hd, hc]
  · intro σc σd I J s k v e h
    simp [Storage.put, h]

/-- Witness for C4: the map cache with a failing durable backend, and the map
backend on both tiers. -/
theorem c4_durable_first_witness :
    failStore.put () "cf" [1] [2] = .error "io error" ∧
    StorageInstance.put mapStore failStore (.CacheAndDb ([] : MapSt) ()) "cf" [1] [2] =
      .panicked unwrapMsg (.CacheAndDb [] ()) ∧
    StorageInstance.put mapStore mapStore (.CacheAndDb ([] : MapSt) ([] : MapSt)) "cf" [1] [2] =
      .ok (.CacheAndDb (mput [] "cf" [1] [2]) (mput [] "cf" [1] [2])) ∧
    StorageInstance.write_batch mapStore failStore (.CacheAndDb ([] : MapSt) ()) ⟨"cf", []⟩ =
      .err ("write batch db error: " ++ "io error") (.CacheAndDb [] ()) ∧
    StorageInstance.write_batch mapStore mapStore (.CacheAndDb ([] : MapSt) ([] : MapSt)) ⟨"cf", []⟩ =
      .ok (.CacheAndDb [] []) ∧
    Storage.put mapStore failStore (⟨[], (), "cf"⟩ : Storage MapSt Unit) [1] [2] =
      .panicked unwrapMsg ⟨[], (), "cf"⟩ :=
  ⟨rfl,
   c4_durable_first.1 MapSt Unit mapStore failStore [] () "cf" [1] [2] "io error" rfl,
   c4_durable_first.2.1 MapSt MapSt mapStore mapStore [] [] "cf" [1] [2]
     (mput [] "cf" [1] [2]) (mput [] "cf" [1] [2]) rfl rfl,
   c4_durable_first.2.2.1 MapSt Unit mapStore failStore [] () ⟨"cf", []⟩ "io error" rfl,
   c4_durable_first.2.2.2.1 MapSt MapSt mapStore mapStore [] [] ⟨"cf", []⟩ [] [] rfl rfl,
   c4_durable_first.2.2.2.2 MapSt Unit mapStore failStore ⟨[], (), "cf"⟩ [1] [2] "io error" rfl⟩

/-- Counterexample for C4 as stated: a durable-write failure during `put` on a
`CacheAndDb` instance aborts with a panic, not with a returned error. -/
theorem c4_counterexample :
    StorageInstance.put mapStore failStore (.CacheAndDb ([] : MapSt) ()) "cf" [3] [4] =
      .panicked unwrapMsg (.CacheAndDb [] ()) ∧
    MRes.isErr (StorageInstance.put mapStore failStore (.CacheAndDb ([] : MapSt) ()) "cf" [3] [4]) =
      false :=
  ⟨rfl, rfl⟩

/-- C5 (amended): the two-tier `Storage` combinator implements the same
routing and state-update policy as the `CacheAndDb` variant of
`StorageInstance` for `get`, `put`, `remove` (same branch structure and
states; the two produce different error texts on a durable removal failure),
`write_batch`, `get_len` and `keys`; its `contains_key`, however, consults
only the cache and never falls back to the durable backend: a cache answer is
returned as-is and a cache error is surfaced as the operation's error. -/
theorem c5_storage_vs_instance :
    (∀ (σc σd : Type) (I : InnerStore σc) (J : InnerStore σd)
       (s : Storage σc σd) (key : Bytes),
       Storage.get I J s key = StorageInstance.get I J (toInstance s) s.prefix_name key) ∧
    (∀ (σc σd : Type) (I : InnerStore σc) (J : InnerStore σd)
       (s : Storage σc σd) (k v : Bytes),
       (Storage.put I J s k v).map toInstance =
         StorageInstance.put I J (toInstance s) s.prefix_name k v) ∧
    (∀ (σc σd : Type) (I : InnerStore σc) (J : InnerStore σd)
       (s : Storage σc σd) (k : Bytes),
       MRes.policyEq toInstance (Storage.remove I J s k)
         (StorageInstance.remove I J (toInstance s) s.prefix_name k)) ∧
    (∀ (σc σd : Type) (I : InnerStore σc) (J : InnerStore σd)
       (s : Storage σc σd) (batch : WriteBatch),
       (Storage.write_batch I J s batch).map toInstance =
         StorageInstance.write_batch I J (toInstance s) batch) ∧
    (∀ (σc σd : Type) (I : InnerStore σc) (J : InnerStore σd) (s : Storage σc σd),
       Storage.get_len I s = StorageInstance.get_len I J (toInstance s)) ∧
    (∀ (σc σd : Type) (I : InnerStore σc) (J : InnerStore σd) (s : Storage σc σd),
       Storage.keys I s = StorageInstance.keys I J (toInstance s)) ∧
    (∀ (σc σd : Type) (I : InnerStore σc) (s : Storage σc σd) (k : Bytes) (answer : Bool),
       I.contains_key s.cache s.prefix_name k = .ok answer →
       Storage.contains_key I s k = .ok answer) ∧
    (∀ (σc σd : Type) (I : InnerStore σc) (s : Storage σc σd) (k : Bytes) (e : String),
       I.contains_key s.cache s.prefix_name k = .error e →
       Storage.contains_key I s k = .err e) := by
  refine ⟨?_, ?_, ?_, ?_, ?_, ?_, ?_, ?_⟩
  · intro σc σd I J s key
    cases hg : I.get s.cache s.prefix_name key with
    | error e => simp [Storage.get, StorageInstance.get, toInstance, hg]
    | ok o =>
      cases o with
      | none => simp [Storage.get, StorageInstance.get, toInstance, hg]
      | some v => simp [Storage.get, StorageInstance.get, toInstance, hg]
  · intro σc σd I J s k v
    cases hd : J.put s.db s.prefix_name k v with
    | error e => simp [Storage.put, StorageInstance.put, toInstance, MRes.map, hd]
    | ok d₂ =>
      cases hc : I.put s.cache s.prefix_name k v with
      | ok c₂ => simp [Storage.put, StorageInstance.put, toInstance, MRes.map, hd, hc]
      | error e => simp [Storage.put, StorageInstance.put, toInstance, MRes.map, hd, hc]
  · intro σc σd I J s k
    cases hd : J.remove s.db s.prefix_name k with
    | error e => simp [Storage.remove, StorageInstance.remove, toInstance, MRes.policyEq, hd]
    | ok d₂ =>
      cases hc : I.remove s.cache s.prefix_name k with
      | ok c₂ => simp [Storage.remove, StorageInstance.remove, toInstance, MRes.policyEq, hd, hc]
      | error e => simp [Storage.remove, StorageInstance.remove, toInstance, MRes.policyEq, hd, hc]
  · intro σc σd I J s batch
    cases hd : J.write_batch s.db batch with
    | error e => simp [Storage.write_batch, StorageInstance.write_batch, toInstance, MRes.map, hd]
    | ok d₂ =>
      cases hc : I.write_batch s.cache batch with
      | ok c₂ => simp [Storage.write_batch, StorageInstance.write_batch, toInstance, MRes.map, hd, hc]
      | error e => simp [Storage.write_batch, StorageInstance.write_batch, toInstance, MRes.map, hd, hc]
  · intro σc σd I J s
    rfl
  · intro σc σd I J s
    rfl
  · intro σc σd I s k answer h
    simp [Storage.contains_key, liftE, h]
  · intro σc σd I s k e h
    simp [Storage.contains_key, liftE, h]

/-- Witness for C5: the map cache answering and the failing cache erroring. -/
theorem c5_storage_vs_instance_witness :
    mapStore.contains_key (mput [] "cf" [5] [6]) "cf" [5] = .ok true ∧
    Storage.contains_key mapStore (⟨mput [] "cf" [5] [6], (), "cf"⟩ : Storage MapSt Unit) [5] =
      .ok true ∧
    failStore.contains_key () "cf" [5] = .error "io error" ∧
    Storage.contains_key failStore (⟨(), [], "cf"⟩ : Storage Unit MapSt) [5] =
      .err "io error" :=
  ⟨rfl,
   c5_storage_vs_instance.2.2.2.2.2.2.1 MapSt Unit mapStore
     ⟨mput [] "cf" [5] [6], (), "cf"⟩ [5] true rfl,
   rfl,
   c5_storage_vs_instance.2.2.2.2.2.2.2 Unit MapSt failStore
     ⟨(), [], "cf"⟩ [5] "io error" rfl⟩

/-- Counterexample for C5 as stated: with an erroring cache and a durable
backend that holds the key, the `CacheAndDb` instance's `contains_key` falls
back to the durable backend and answers true, while the `Storage` combinator's
`contains_key` surfaces the cache error — the two policies differ. -/
theorem c5_counterexample :
    StorageInstance.contains_key failStore mapStore
      (.CacheAndDb () (mput [] "cf" [1] [2])) "cf" [1] = .ok true ∧
    Storage.contains_key failStore
      (⟨(), mput [] "cf" [1] [2], "cf"⟩ : Storage Unit MapSt) [1] = .err "io error" :=
  ⟨rfl, rfl⟩

/-- C6: on a `CacheAndDb` instance, `get` consults the cache first — a cache
hit is returned without the durable backend, and a cache miss or cache error
falls through to the durable backend; with the map backend on both tiers,
`put(k, v)` writes both tiers, `get(k)` after it returns `v` whatever the
durable state is, and if the cache entry is removed `get(k)` still returns `v`
through the durable backend. -/
theorem c6_cacheanddb_get :
    (∀ (σc σd : Type) (I : InnerStore σc) (J : InnerStore σd) (c : σc) (d : σd)
       (pn : String) (k v : Bytes),
       I.get c pn k = .ok (some v) →
       StorageInstance.get I J (.CacheAndDb c d) pn k = .ok (some v)) ∧
    (∀ (σc σd : Type) (I : InnerStore σc) (J : InnerStore σd) (c : σc) (d : σd)
       (pn : String) (k : Bytes),
       I.get c pn k = .ok none →
       StorageInstance.get I J (.CacheAndDb c d) pn k = liftE (J.get d pn k)) ∧
    (∀ (σc σd : Type) (I : InnerStore σc) (J : InnerStore σd) (c : σc) (d : σd)
       (pn : String) (k : Bytes) (e : String),
       I.get c pn k = .error e →
       StorageInstance.get I J (.CacheAndDb c d) pn k = liftE (J.get d pn k)) ∧
    (∀ (c d : MapSt) (pn : String) (k v : Bytes),
       StorageInstance.put mapStore mapStore (.CacheAndDb c d) pn k v =
         .ok (.CacheAndDb (mput c pn k v) (mput d pn k v))) ∧
    (∀ (c : MapSt) (d : MapSt) (pn : String) (k v : Bytes),
       StorageInstance.get mapStore mapStore (.CacheAndDb (mput c pn k v) d) pn k =
         .ok (some v)) ∧
    (∀ (c d : MapSt) (pn : String) (k v : Bytes),
       StorageInstance.get mapStore mapStore
         (.CacheAndDb (mremove c pn k) (mput d pn k v)) pn k = .ok (some v)) := by
  refine ⟨?_, ?_, ?_, ?_, ?_, ?_⟩
  · intro σc σd I J c d pn k v h
    simp [StorageInstance.get, h]
  · intro σc σd I J c d pn k h
    simp [StorageInstance.get, h]
  · intro σc σd I J c d pn k e h
    simp [StorageInstance.get, h]
  · intro c d pn k v
    rfl
  · intro c d pn k v
    simp [StorageInstance.get, mapStore, mget_mput]
  · intro c d pn k v
    simp [StorageInstance.get, mapStore, mget_mremove, mget_mput, liftE]

/-- Witness for C6: concrete cache states realizing a hit, a miss and an
error. -/
theorem c6_cacheanddb_get_witness :
    mapStore.get (mput [] "cf" [5] [6]) "cf" [5] = .ok (some [6]) ∧
    StorageInstance.get mapStore mapStore
      (.CacheAndDb (mput [] "cf" [5] [6]) ([] : MapSt)) "cf" [5] = .ok (some [6]) ∧
    mapStore.get ([] : MapSt) "cf" [5] = .ok none ∧
    StorageInstance.get mapStore mapStore (.CacheAndDb ([] : MapSt) ([] : MapSt)) "cf" [5] =
      liftE (mapStore.get ([] : MapSt) "cf" [5]) ∧
    failStore.get () "cf" [5] = .error "io error" ∧
    StorageInstance.get failStore mapStore (.CacheAndDb () ([] : MapSt)) "cf" [5] =
      liftE (mapStore.get ([] : MapSt) "cf" [5]) :=
  ⟨rfl,
   c6_cacheanddb_get.1 MapSt MapSt mapStore mapStore (mput [] "cf" [5] [6]) [] "cf" [5] [6]
     rfl,
   rfl,
   c6_cacheanddb_get.2.1 MapSt MapSt mapStore mapStore [] [] "cf" [5] rfl,
   rfl,
   c6_cacheanddb_get.2.2.1 Unit MapSt failStore mapStore () [] "cf" [5] "io error" rfl⟩

/-- C8: the `HashValue` key and value codecs round-trip exactly —
`decode(encode(x)) = x` for every 32-byte hash value — and decoding malformed
bytes (any length other than 32) fails with an explicit decode error instead
of panicking or truncating; `CodecStorage::get` surfaces such a decode error
on a stored malformed value rather than panicking. -/
theorem c8_codec_roundtrip :
    (∀ h : HashValue, (HashValue.encode_key h).bind HashValue.decode_key = .ok h) ∧
    (∀ h : HashValue, (HashValue.encode_value h).bind HashValue.decode_value = .ok h) ∧
    (∀ data : Bytes, ¬ data.length = 32 →
       HashValue.decode_key data = .error "InvalidLength") ∧
    (∀ data : Bytes, ¬ data.length = 32 →
       HashValue.decode_value data = .error "InvalidLength") ∧
    (∀ (σ : Type) (S : KVStore σ) (s : σ) (key : HashValue) (bytes : Bytes),
       S.get s key.to_vec = .ok (some bytes) → ¬ bytes.length = 32 →
       CodecStorage.get S s key = .error "InvalidLength") := by
  refine ⟨?_, ?_, ?_, ?_, ?_⟩
  · intro h
    simp [HashValue.encode_key, HashValue.decode_key, HashValue.from_slice,
      HashValue.to_vec, Except.bind, h.2]
  · intro h
    simp [HashValue.encode_value, HashValue.decode_value, HashValue.from_slice,
      HashValue.to_vec, Except.bind, h.2]
  · intro data h
    simp [HashValue.decode_key, HashValue.from_slice, h]
  · intro data h
    simp [HashValue.decode_value, HashValue.from_slice, h]
  · intro σ S s key bytes hg hb
    simp only [HashValue.to_vec] at hg
    simp [CodecStorage.get, HashValue.encode_key, HashValue.to_vec, hg,
      HashValue.decode_value, HashValue.from_slice, hb]

/-- Witness for C8: the all-zero 32-byte hash round-trips; the two-byte input
[1, 2] is rejected, both directly and through `CodecStorage::get`. -/
theorem c8_codec_roundtrip_witness :
    (HashValue.encode_key h32).bind HashValue.decode_key = .ok h32 ∧
    ¬ ([1, 2] : Bytes).length = 32 ∧
    HashValue.decode_key [1, 2] = .error "InvalidLength" ∧
    kvConst.get () h32.to_vec = .ok (some [1, 2]) ∧
    CodecStorage.get kvConst () h32 = .error "InvalidLength" :=
  ⟨c8_codec_roundtrip.1 h32,
   by decide,
   c8_codec_roundtrip.2.2.1 [1, 2] (by decide),
   rfl,
   c8_codec_roundtrip.2.2.2.2 Unit kvConst () h32 [1, 2] rfl (by decide)⟩

end Starcoin
